import Mathlib

/-!
Verification development for the SNAKEIUM snake game core
(src/snakeium/game_engine.py and src/snakeium/config_manager.py).

The Python classes are shallowly embedded as Lean structures and pure
functions.  Machine integers are modelled as `Int`/`Nat` (Python ints are
unbounded, and all quantities here stay non-negative where `Nat` is used).
Python's `%` on a positive modulus agrees with `Int` `%` (Euclidean mod).
The snake body, a Python list that is never empty, is modelled as an
explicit `head` plus the `tail` list of the remaining segments; `Snake.body`
recovers the full list.  Randomness (the food rejection-sampling attempts)
is modelled by passing the stream of sampled cells as an explicit list.
Purely visual state (particle positions, rainbow hue, pulse phases) is not
gameplay-relevant and is omitted.
-/

/-- Movement directions with their unit deltas, from `Direction(Enum)` in
game_engine.py: UP=(0,-1), DOWN=(0,1), LEFT=(-1,0), RIGHT=(1,0). -/
inductive Direction
  | UP
  | DOWN
  | LEFT
  | RIGHT
deriving DecidableEq, Repr

/-- Unit delta of a direction (the `.value` of the Python enum member). -/
def Direction.value : Direction → Int × Int
  | .UP => (0, -1)
  | .DOWN => (0, 1)
  | .LEFT => (-1, 0)
  | .RIGHT => (1, 0)

/-- Grid position, from the `Position` dataclass (equality by value). -/
structure Position where
  x : Int
  y : Int
deriving DecidableEq, Repr

/-- Game states, from `GameState(Enum)` in game_engine.py. -/
inductive GameState
  | MENU
  | PLAYING
  | PAUSED
  | GAME_OVER
deriving DecidableEq, Repr

/-- Food types, from `random.choice(['normal', 'golden', 'mega'])` in
`Food.__init__`. -/
inductive FoodType
  | normal
  | golden
  | mega
deriving DecidableEq, Repr

/-- Score value per food type, from the `Food.properties` table
(normal 10, golden 50, mega 100) read by `Food.get_score_value`. -/
def FoodType.get_score_value : FoodType → Nat
  | .normal => 10
  | .golden => 50
  | .mega => 100

/-- Growth granted per food type, from `Snake.eat_food`
(base 1, mega 3, golden 2). -/
def FoodType.base_growth (t : FoodType) : Nat :=
  if t = .mega then 3 else if t = .golden then 2 else 1

/-- Power-up kinds, from `PowerUpType(Enum)` in game_engine.py. -/
inductive PowerUpType
  | SPEED_BOOST
  | SCORE_MULTIPLIER
  | RAINBOW_MODE
  | MEGA_FOOD
  | SHIELD
  | SLOW_TIME
  | DOUBLE_SCORE
  | TELEPORT
deriving DecidableEq, Repr

/-- Timed-effect map of the snake, from the `self.effects` dict initialised
in `Snake.__init__` (speed_boost 0, score_multiplier 1,
score_multiplier_timer 0, rainbow_mode 0, shield 0, slow_time 0,
double_score 0). -/
structure Effects where
  speed_boost : Nat
  score_multiplier : Nat
  score_multiplier_timer : Nat
  rainbow_mode : Nat
  shield : Nat
  slow_time : Nat
  double_score : Nat
deriving DecidableEq, Repr

/-- Snake state, from `Snake.__init__` in game_engine.py.  The Python body
list is never empty (it always holds at least the head), so it is modelled
as `head` plus the `tail` of remaining segments, in order. -/
structure Snake where
  grid_width : Int
  grid_height : Int
  head : Position
  tail : List Position
  direction : Direction
  next_direction : Direction
  speed : Nat
  grow_pending : Nat
  move_timer : Nat
  move_interval : Nat
  effects : Effects
deriving DecidableEq, Repr

/-- Full body list, head first (`self.body` in the source). -/
def Snake.body (s : Snake) : List Position :=
  s.head :: s.tail

/-- Constructor, from `Snake.__init__(grid_width, grid_height, initial_speed)`:
single segment at the grid centre, facing RIGHT, interval `60 // speed`. -/
def Snake.init (grid_width grid_height : Int) (initial_speed : Nat) : Snake :=
  { grid_width := grid_width
    grid_height := grid_height
    head := ⟨grid_width / 2, grid_height / 2⟩
    tail := []
    direction := .RIGHT
    next_direction := .RIGHT
    speed := initial_speed
    grow_pending := 0
    move_timer := 0
    move_interval := 60 / initial_speed
    effects :=
      { speed_boost := 0
        score_multiplier := 1
        score_multiplier_timer := 0
        rainbow_mode := 0
        shield := 0
        slow_time := 0
        double_score := 0 } }

/-- Discrete movement step, from `Snake.move`: consume the buffered
direction, compute the new head modulo the grid, insert it at the front of
the body, then pop the last segment unless growth is pending (in which case
decrement `grow_pending` instead). -/
def Snake.move (s : Snake) : Snake :=
  let direction := s.next_direction
  let dx := direction.value.1
  let dy := direction.value.2
  let new_head : Position :=
    ⟨(s.head.x + dx) % s.grid_width, (s.head.y + dy) % s.grid_height⟩
  if s.grow_pending > 0 then
    { s with direction := direction
             head := new_head
             tail := s.head :: s.tail
             grow_pending := s.grow_pending - 1 }
  else
    { s with direction := direction
             head := new_head
             tail := (s.head :: s.tail).dropLast }

/-- Direction-change command, from `Snake.change_direction`: when the body
has more than one segment, a direction whose delta is the exact opposite of
the current direction's delta is rejected; otherwise the single
`next_direction` buffer is overwritten. -/
def Snake.change_direction (s : Snake) (new_direction : Direction) : Snake :=
  if s.body.length > 1 then
    let current := s.direction.value
    let nd := new_direction.value
    if current.1 + nd.1 = 0 ∧ current.2 + nd.2 = 0 then
      s
    else
      { s with next_direction := new_direction }
  else
    { s with next_direction := new_direction }

/-- Self-collision test, from `Snake.check_self_collision`: false while the
shield effect is active, otherwise true iff the head occurs in the rest of
the body. -/
def Snake.check_self_collision (s : Snake) : Bool :=
  if s.effects.shield > 0 then
    false
  else
    decide (s.head ∈ s.tail)

/-- Eat food, from `Snake.eat_food`: add the type's growth to the pending
growth counter. -/
def Snake.eat_food (s : Snake) (food_type : FoodType) : Snake :=
  { s with grow_pending := s.grow_pending + food_type.base_growth }

/-- Collect a power-up, from `Snake.eat_powerup`: set the kind-specific
timer (speed 300, multiplier 3 for 600, rainbow 900, shield 600,
slow time 480, double score 450), or add 5 growth for MEGA_FOOD.
TELEPORT has no handler in the source and leaves the snake unchanged. -/
def Snake.eat_powerup (s : Snake) (t : PowerUpType) : Snake :=
  match t with
  | .SPEED_BOOST => { s with effects := { s.effects with speed_boost := 300 } }
  | .SCORE_MULTIPLIER =>
      { s with effects :=
          { s.effects with score_multiplier := 3, score_multiplier_timer := 600 } }
  | .RAINBOW_MODE => { s with effects := { s.effects with rainbow_mode := 900 } }
  | .MEGA_FOOD => { s with grow_pending := s.grow_pending + 5 }
  | .SHIELD => { s with effects := { s.effects with shield := 600 } }
  | .SLOW_TIME => { s with effects := { s.effects with slow_time := 480 } }
  | .DOUBLE_SCORE => { s with effects := { s.effects with double_score := 450 } }
  | .TELEPORT => s

/-- Current speed, from `Snake.get_current_speed`: base speed plus a
length bonus `len(body) // 10`, doubled and capped at 30 while the speed
boost is active. -/
def Snake.get_current_speed (s : Snake) : Nat :=
  let base_speed := s.speed + s.body.length / 10
  if s.effects.speed_boost > 0 then
    min (base_speed * 2) 30
  else
    base_speed

/-- Current score multiplier, from `Snake.get_score_multiplier`: the
multiplier effect value, doubled while the double-score effect is active. -/
def Snake.get_score_multiplier (s : Snake) : Nat :=
  let multiplier := s.effects.score_multiplier
  if s.effects.double_score > 0 then
    multiplier * 2
  else
    multiplier

/-- Countdown decay performed by the loop at the top of `Snake.update`:
each of the five countdown effects is decremented when positive. -/
def Effects.tick (e : Effects) : Effects :=
  { e with
      speed_boost := if e.speed_boost > 0 then e.speed_boost - 1 else e.speed_boost
      rainbow_mode := if e.rainbow_mode > 0 then e.rainbow_mode - 1 else e.rainbow_mode
      shield := if e.shield > 0 then e.shield - 1 else e.shield
      slow_time := if e.slow_time > 0 then e.slow_time - 1 else e.slow_time
      double_score := if e.double_score > 0 then e.double_score - 1 else e.double_score }

/-- Multiplier-timer branch of `Snake.update`: decrement the timer while it
is positive; once it is 0, reset the multiplier to the neutral value 1. -/
def Effects.tickMultiplier (e : Effects) : Effects :=
  if e.score_multiplier_timer > 0 then
    { e with score_multiplier_timer := e.score_multiplier_timer - 1 }
  else
    { e with score_multiplier := 1 }

/-- Per-tick snake update, from `Snake.update`: decrement each positive
countdown effect; decrement the multiplier timer or, when it is already 0,
reset the multiplier to 1; recompute the move interval from the current
speed (the Python float expression `max(1, int(60 // (speed * factor)))`
with factor 1.0 or 0.5 is exact and equals `max 1 (60 / speed)` resp.
`max 1 (120 / speed)` in integer arithmetic); advance the frame counter and
perform a discrete `move` when it reaches the interval, resetting it to 0. -/
def Snake.update (s : Snake) : Snake :=
  let s := { s with effects := s.effects.tick.tickMultiplier }
  let current_speed := s.get_current_speed
  let s :=
    { s with move_interval :=
        if s.effects.slow_time > 0 then
          max 1 (120 / current_speed)
        else
          max 1 (60 / current_speed) }
  let s := { s with move_timer := s.move_timer + 1 }
  if s.move_timer ≥ s.move_interval then
    Snake.move { s with move_timer := 0 }
  else
    s

/-- Row-major list of all grid cells, the iteration order of the fallback
scan in `Food._generate_position` (outer loop over y, inner over x). -/
def gridCells (grid_width grid_height : Nat) : List Position :=
  (List.range grid_height).flatMap fun (y : Nat) =>
    (List.range grid_width).map fun (x : Nat) => ⟨(x : Int), (y : Int)⟩

/-- Food position generation, from `Food._generate_position`: up to 100
rejection-sampling attempts (the sampled cells are passed in as the list
`attempts`, modelling the RNG stream); on exhaustion, scan the grid
row-major for the first cell not occupied by the snake; as a last resort
return (0,0). -/
def Food.generate_position (grid_width grid_height : Nat) (attempts : List Position)
    (snake_body : List Position) : Position :=
  match (attempts.take 100).find? (fun pos => decide (pos ∉ snake_body)) with
  | some pos => pos
  | none =>
    match (gridCells grid_width grid_height).find? (fun pos => decide (pos ∉ snake_body)) with
    | some pos => pos
    | none => ⟨0, 0⟩

/-- Gameplay tick, from `Game.update_gameplay` (movement, self-collision,
food consumption) together with `Game.eat_food`: update the snake; a fatal
self-collision transitions to GAME_OVER; otherwise, if the head is on the
food, add the food's growth and add `score value × multiplier` to the
score.  The remaining parts of the Python method (power-up pickup/expiry,
particle bookkeeping, statistics) never change the game state or the
score-per-food rule and are modelled separately where a claim needs them. -/
def Game.update_gameplay (s : Snake) (food_position : Position) (food_type : FoodType)
    (score : Nat) : GameState × Snake × Nat :=
  let s := s.update
  if s.check_self_collision then
    (GameState.GAME_OVER, s, score)
  else if s.head = food_position then
    let s := s.eat_food food_type
    (GameState.PLAYING, s, score + food_type.get_score_value * s.get_score_multiplier)
  else
    (GameState.PLAYING, s, score)

/-- High-score store, from `ConfigManager`: the `high_scores` dict (modelled
as an association list from mode name to score list) and the
`statistics['highest_score']` entry. -/
structure HighScoreStore where
  high_scores : List (String × List Nat)
  highest_score : Nat
deriving DecidableEq, Repr

/-- Bucket lookup with the Python default of a fresh empty list
(`if mode not in self.high_scores: self.high_scores[mode] = []`). -/
def getBucket (hs : List (String × List Nat)) (mode : String) : List Nat :=
  (hs.lookup mode).getD []

/-- Dict update `self.high_scores[mode] = bucket` on the association list. -/
def setBucket : List (String × List Nat) → String → List Nat → List (String × List Nat)
  | [], mode, bucket => [(mode, bucket)]
  | (m, v) :: rest, mode, bucket =>
    if m = mode then
      (mode, bucket) :: rest
    else
      (m, v) :: setBucket rest mode bucket

/-- Bucket update of `ConfigManager.update_high_score`: append the score,
sort descending (`sort(reverse=True)`), keep the first 10. -/
def updateBucket (bucket : List Nat) (score : Nat) : List Nat :=
  (List.insertionSort (· ≥ ·) (bucket ++ [score])).take 10

/-- High-score commit, from `ConfigManager.update_high_score`: insert the
score into the mode's bucket (sorted descending, truncated to 10); return
True, updating `statistics['highest_score']`, exactly when the score
strictly exceeds that global maximum, else False. -/
def ConfigManager.update_high_score (st : HighScoreStore) (mode : String) (score : Nat) :
    HighScoreStore × Bool :=
  let bucket := getBucket st.high_scores mode
  let bucket := updateBucket bucket score
  let hs := setBucket st.high_scores mode bucket
  if score > st.highest_score then
    ({ high_scores := hs, highest_score := score }, true)
  else
    ({ high_scores := hs, highest_score := st.highest_score }, false)

/-- Outcome of the attempt to write the configuration/score file inside
`ConfigManager.save_config` (the body of its `try` block). -/
inductive WriteOutcome
  | ok
  | ioError (msg : String)
deriving DecidableEq, Repr

/-- Persistence, from `ConfigManager.save_config`: returns True on a
successful write; any exception raised by the write is caught by the
`except` clause, reported, and converted to the return value False. -/
def ConfigManager.save_config (w : WriteOutcome) : Bool :=
  match w with
  | .ok => true
  | .ioError _ => false

/-- Game-over transition, from `Game.game_over`: set the state to
GAME_OVER, commit the score via `update_high_score`, then persist via
`save_config`; the persistence outcome only determines the saved flag and
never interrupts the transition. -/
def Game.game_over (st : HighScoreStore) (mode : String) (score : Nat) (w : WriteOutcome) :
    GameState × HighScoreStore × Bool × Bool :=
  let state := GameState.GAME_OVER
  let committed := ConfigManager.update_high_score st mode score
  let saved := ConfigManager.save_config w
  (state, committed.1, committed.2, saved)

/-- Example state: a length-2 snake moving RIGHT at the centre of the
default 20x20 grid (used to exercise the direction-buffer behaviour). -/
def c3snake : Snake :=
  { Snake.init 20 20 4 with head := ⟨10, 10⟩, tail := [⟨9, 10⟩] }

/-- Example state: a length-5 hooked snake about to move DOWN into its own
body on this tick (frame counter one short of the interval), with exactly
one tick of shield remaining.  Reachable e.g. 599 ticks after a SHIELD
pickup. -/
def c2snake : Snake :=
  { Snake.init 20 20 4 with
      head := ⟨5, 5⟩
      tail := [⟨6, 5⟩, ⟨6, 6⟩, ⟨5, 6⟩, ⟨4, 6⟩]
      direction := .LEFT
      next_direction := .DOWN
      move_timer := 14
      effects := { (Snake.init 20 20 4).effects with shield := 1 } }

/-- Example state: a fresh snake with two ticks of shield remaining. -/
def c2shielded : Snake :=
  { Snake.init 20 20 4 with
      effects := { (Snake.init 20 20 4).effects with shield := 2 } }

/-- Example state: a fresh snake whose score-multiplier effect is on its
last timer tick (multiplier 3, timer 1); this is the state reached 599
ticks after a SCORE_MULTIPLIER pickup. -/
def c8snake : Snake :=
  { Snake.init 20 20 4 with
      effects :=
        { (Snake.init 20 20 4).effects with
            score_multiplier := 3
            score_multiplier_timer := 1 } }

/-- Example store: the "classic" bucket already holds 10 entries, all
strictly above 500. -/
def c5store : HighScoreStore :=
  { high_scores :=
      [("classic", [1010, 1009, 1008, 1007, 1006, 1005, 1004, 1003, 1002, 1001])]
    highest_score := 1010 }

/-- Moving never changes the effect map. -/
lemma Snake.move_effects (s : Snake) : (s.move).effects = s.effects := by
  unfold Snake.move
  split <;> rfl

/-- The per-tick update changes the effect map exactly by the decay pass
followed by the multiplier-timer branch. -/
lemma Snake.update_effects (s : Snake) :
    (s.update).effects = s.effects.tick.tickMultiplier := by
  unfold Snake.update
  dsimp only
  split <;> split <;> simp [Snake.move_effects]

/-- Field-level description of one effect-decay tick. -/
lemma Effects.tick_tickMultiplier_eq (e : Effects) :
    e.tick.tickMultiplier =
      { speed_boost := e.speed_boost - 1
        score_multiplier :=
          if 0 < e.score_multiplier_timer then e.score_multiplier else 1
        score_multiplier_timer := e.score_multiplier_timer - 1
        rainbow_mode := e.rainbow_mode - 1
        shield := e.shield - 1
        slow_time := e.slow_time - 1
        double_score := e.double_score - 1 } := by
  unfold Effects.tick Effects.tickMultiplier
  dsimp only
  split_ifs <;> simp [Effects.mk.injEq] <;> omega

/-- Eating food changes only the pending-growth counter, not the effects. -/
lemma Snake.eat_food_effects (s : Snake) (ft : FoodType) :
    (s.eat_food ft).effects = s.effects := rfl

/-- Eating food leaves the body unchanged. -/
lemma Snake.eat_food_body (s : Snake) (ft : FoodType) :
    (s.eat_food ft).body = s.body := rfl

/-- Looking up the bucket just written by `setBucket` returns it. -/
lemma lookup_setBucket (hs : List (String × List Nat)) (mode : String) (bucket : List Nat) :
    (setBucket hs mode bucket).lookup mode = some bucket := by
  induction hs with
  | nil => simp [setBucket, List.lookup]
  | cons p rest ih =>
      obtain ⟨m, v⟩ := p
      by_cases h : m = mode
      · subst h
        simp [setBucket, List.lookup]
      · have hbeq : (mode == m) = false := by
          simpa using Ne.symm h
        simp only [setBucket, if_neg h, List.lookup, hbeq, ih]

/-- C1: a discrete step moves the head by the direction delta modulo the
grid size, prepends it to the body, and pops the tail segment unless growth
is pending, in which case the pending counter is decremented and the length
grows by exactly 1; a length-1 snake at (10,10) moving RIGHT on a 20x20
grid has body [(11,10)] and no pending growth after one discrete step. -/
theorem C1_discrete_step (s : Snake) :
    (s.move).head =
      ⟨(s.head.x + s.next_direction.value.1) % s.grid_width,
       (s.head.y + s.next_direction.value.2) % s.grid_height⟩ ∧
    (s.move).body =
      (if 0 < s.grow_pending then (s.move).head :: s.body
       else ((s.move).head :: s.body).dropLast) ∧
    (s.move).grow_pending = s.grow_pending - 1 ∧
    (s.move).body.length =
      (if 0 < s.grow_pending then s.body.length + 1 else s.body.length) ∧
    ((Snake.init 20 20 4).move).body = [⟨11, 10⟩] ∧
    ((Snake.init 20 20 4).move).grow_pending = 0 := by
  refine ⟨?_, ?_, ?_, ?_, by decide, by decide⟩
  · unfold Snake.move
    dsimp only
    split <;> rfl
  · by_cases h : 0 < s.grow_pending <;> simp [Snake.move, Snake.body, h]
  · by_cases h : 0 < s.grow_pending
    · simp [Snake.move, h]
    · simp [Snake.move, h]
      omega
  · by_cases h : 0 < s.grow_pending
    · simp [Snake.move, Snake.body, h]
    · simp [Snake.move, Snake.body, h, List.length_dropLast]

/-- C2 counterexample: entering a tick with the shield at exactly 1 (so the
shield is active, remaining duration > 0), a self-collision on that tick
still transitions the game to GAME_OVER, because the per-tick decay runs
before the collision check. -/
theorem C2_shield_expiry_cex :
    0 < c2snake.effects.shield ∧
    (c2snake.update).head ∈ (c2snake.update).tail ∧
    (Game.update_gameplay c2snake ⟨0, 0⟩ .normal 0).1 = GameState.GAME_OVER := by
  decide

/-- C2 (amended): for every snake state entering a tick with shield
remaining at least 2, the tick never transitions to GAME_OVER (even when
the head occurs elsewhere in the body), the shield decreases by exactly 1
(the normal per-tick countdown, unaffected by the collision), and the body
is exactly the body produced by the normal movement update — no segments
are removed by the collision. -/
theorem C2_shield_absorbs (s : Snake) (fp : Position) (ft : FoodType) (score : Nat)
    (h : 1 < s.effects.shield) :
    (Game.update_gameplay s fp ft score).1 = GameState.PLAYING ∧
    (Game.update_gameplay s fp ft score).2.1.effects.shield = s.effects.shield - 1 ∧
    (Game.update_gameplay s fp ft score).2.1.body = (s.update).body := by
  have hsh : (s.update).effects.shield = s.effects.shield - 1 := by
    rw [Snake.update_effects, Effects.tick_tickMultiplier_eq]
  have hcol : (s.update).check_self_collision = false := by
    unfold Snake.check_self_collision
    rw [hsh, if_pos (by omega)]
  unfold Game.update_gameplay
  dsimp only
  rw [hcol]
  simp only [Bool.false_eq_true, if_false]
  split <;>
    simp [Snake.eat_food_effects, Snake.eat_food_body, hsh]

/-- C2 witness: the amended theorem applied to a concrete snake with two
shield ticks remaining. -/
theorem C2_shield_absorbs_witness :
    1 < c2shielded.effects.shield ∧
    ((Game.update_gameplay c2shielded ⟨0, 0⟩ .normal 0).1 = GameState.PLAYING ∧
     (Game.update_gameplay c2shielded ⟨0, 0⟩ .normal 0).2.1.effects.shield =
        c2shielded.effects.shield - 1 ∧
     (Game.update_gameplay c2shielded ⟨0, 0⟩ .normal 0).2.1.body =
        (c2shielded.update).body) :=
  ⟨by decide, C2_shield_absorbs c2shielded ⟨0, 0⟩ .normal 0 (by decide)⟩

/-- C3 counterexample: with a length-2 snake moving RIGHT, issuing UP then
LEFT in the same tick leaves UP in the single direction buffer (LEFT was
rejected at queue time as the reverse of RIGHT, not retained in a depth-2
queue); the next step consumes UP and the following step also moves UP,
not LEFT. -/
theorem C3_direction_queue_cex :
    1 < c3snake.body.length ∧
    c3snake.direction = Direction.RIGHT ∧
    (((c3snake.change_direction .UP).change_direction .LEFT).next_direction = Direction.UP) ∧
    ((((c3snake.change_direction .UP).change_direction .LEFT).move).direction = Direction.UP) ∧
    ((((c3snake.change_direction .UP).change_direction .LEFT).move).next_direction
        = Direction.UP) ∧
    ((((c3snake.change_direction .UP).change_direction .LEFT).move).move).direction
        = Direction.UP := by
  decide

/-- C3 (amended): direction changes go through a single `next_direction`
buffer (depth 1) which each accepted command overwrites; the 180-degree
reversal rule is enforced at command time against the currently applied
direction, and the buffered direction is consumed (applied) by the next
discrete step, which leaves the buffer holding that same direction. -/
theorem C3_direction_buffer (s : Snake) (d : Direction) :
    (s.change_direction d =
      if 1 < s.body.length ∧ s.direction.value.1 + d.value.1 = 0 ∧
          s.direction.value.2 + d.value.2 = 0 then
        s
      else
        { s with next_direction := d }) ∧
    (s.move).direction = s.next_direction ∧
    (s.move).next_direction = s.next_direction := by
  refine ⟨?_, ?_, ?_⟩
  · unfold Snake.change_direction
    dsimp only
    split_ifs <;> simp_all
  · unfold Snake.move
    dsimp only
    split <;> rfl
  · unfold Snake.move
    dsimp only
    split <;> rfl

/-- C4: when the (updated) head is on the food and the tick is not fatal,
the score increases by exactly the food's score value times the current
multiplier, where the double-score effect stacks multiplicatively (x2), and
the food's growth is added to the pending growth; eating a normal food
worth 10 with multiplier 1 and no double-score adds exactly 10. -/
theorem C4_food_score (s : Snake) (fp : Position) (ft : FoodType) (score : Nat)
    (h1 : (s.update).check_self_collision = false)
    (h2 : (s.update).head = fp) :
    (Game.update_gameplay s fp ft score).2.2 =
      score + ft.get_score_value *
        ((s.update).effects.score_multiplier *
          (if 0 < (s.update).effects.double_score then 2 else 1)) ∧
    (Game.update_gameplay s fp ft score).2.1.grow_pending =
      (s.update).grow_pending + ft.base_growth ∧
    (Game.update_gameplay (Snake.init 20 20 4) ⟨10, 10⟩ .normal 0).2.2 = 10 := by
  refine ⟨?_, ?_, by decide⟩
  · unfold Game.update_gameplay
    dsimp only
    rw [h1]
    simp only [Bool.false_eq_true, if_false, h2, if_pos rfl]
    simp only [Snake.get_score_multiplier, Snake.eat_food]
    by_cases hd : 0 < (s.update).effects.double_score
    · simp [hd]
    · simp [hd]
  · unfold Game.update_gameplay
    dsimp only
    rw [h1]
    simp only [Bool.false_eq_true, if_false, h2, if_pos rfl]
    simp [Snake.eat_food]

/-- C4 witness: a fresh snake on a 20x20 grid whose first tick finds the
food under its head; the score goes from 0 to 10. -/
theorem C4_food_score_witness :
    (((Snake.init 20 20 4).update).check_self_collision = false ∧
     ((Snake.init 20 20 4).update).head = ⟨10, 10⟩) ∧
    ((Game.update_gameplay (Snake.init 20 20 4) ⟨10, 10⟩ .normal 0).2.2 =
      0 + FoodType.get_score_value .normal *
        (((Snake.init 20 20 4).update).effects.score_multiplier *
          (if 0 < ((Snake.init 20 20 4).update).effects.double_score then 2 else 1)) ∧
     (Game.update_gameplay (Snake.init 20 20 4) ⟨10, 10⟩ .normal 0).2.1.grow_pending =
      ((Snake.init 20 20 4).update).grow_pending + FoodType.base_growth .normal ∧
     (Game.update_gameplay (Snake.init 20 20 4) ⟨10, 10⟩ .normal 0).2.2 = 10) :=
  ⟨⟨by decide, by decide⟩,
   C4_food_score (Snake.init 20 20 4) ⟨10, 10⟩ .normal 0 (by decide) (by decide)⟩

/-- C5: after every high-score commit the mode's bucket is sorted in
descending order and holds at most 10 entries, and when the bucket already
holds 10 entries all strictly above the new score, the new score is absent
from the committed top-10 list. -/
theorem C5_bucket_invariant (st : HighScoreStore) (mode : String) (score : Nat) :
    List.Sorted (· ≥ ·)
      (getBucket (ConfigManager.update_high_score st mode score).1.high_scores mode) ∧
    (getBucket (ConfigManager.update_high_score st mode score).1.high_scores mode).length
        ≤ 10 ∧
    ((getBucket st.high_scores mode).length = 10 →
      (∀ x ∈ getBucket st.high_scores mode, score < x) →
      score ∉ getBucket (ConfigManager.update_high_score st mode score).1.high_scores mode) := by
  have hb : getBucket (ConfigManager.update_high_score st mode score).1.high_scores mode
      = updateBucket (getBucket st.high_scores mode) score := by
    unfold ConfigManager.update_high_score
    dsimp only
    split <;> (unfold getBucket; rw [lookup_setBucket]; rfl)
  rw [hb]
  generalize getBucket st.high_scores mode = l
  refine ⟨?_, ?_, ?_⟩
  · exact List.Pairwise.sublist (List.take_sublist _ _) (List.sorted_insertionSort _ _)
  · unfold updateBucket
    rw [List.length_take]
    exact inf_le_left
  · intro h10 habove hmem
    unfold updateBucket at hmem
    have hperm : (List.insertionSort (· ≥ ·) (l ++ [score])).Perm (l ++ [score]) :=
      List.perm_insertionSort _ _
    have hlen : (List.insertionSort (· ≥ ·) (l ++ [score])).length = 11 := by
      rw [hperm.length_eq, List.length_append, h10]
      rfl
    have hsorted : List.Pairwise (· ≥ ·) (List.insertionSort (· ≥ ·) (l ++ [score])) :=
      List.sorted_insertionSort _ _
    have hsplit :
        (List.insertionSort (· ≥ ·) (l ++ [score])).take 10 ++
          (List.insertionSort (· ≥ ·) (l ++ [score])).drop 10 =
          List.insertionSort (· ≥ ·) (l ++ [score]) :=
      List.take_append_drop _ _
    have hdlen : ((List.insertionSort (· ≥ ·) (l ++ [score])).drop 10).length = 1 := by
      rw [List.length_drop, hlen]
    obtain ⟨m, hm⟩ := List.length_eq_one.mp hdlen
    have hpw : ∀ a ∈ (List.insertionSort (· ≥ ·) (l ++ [score])).take 10,
        ∀ b ∈ (List.insertionSort (· ≥ ·) (l ++ [score])).drop 10, a ≥ b := by
      have hs2 := hsorted
      rw [← hsplit] at hs2
      exact (List.pairwise_append.mp hs2).2.2
    have hge : score ≥ m := by
      refine hpw score hmem m ?_
      rw [hm]
      exact List.mem_singleton_self m
    have hcount : (List.insertionSort (· ≥ ·) (l ++ [score])).count score = 1 := by
      rw [hperm.count_eq, List.count_append]
      have hz : l.count score = 0 := by
        rw [List.count_eq_zero]
        intro hmem2
        exact absurd (habove score hmem2) (lt_irrefl score)
      rw [hz]
      simp
    have hmmem : m ∈ l ∨ m = score := by
      have hml : m ∈ List.insertionSort (· ≥ ·) (l ++ [score]) := by
        rw [← hsplit]
        refine List.mem_append_right _ ?_
        rw [hm]
        exact List.mem_singleton_self m
      rcases List.mem_append.mp (hperm.mem_iff.mp hml) with hcase | hcase
      · exact Or.inl hcase
      · exact Or.inr (List.mem_singleton.mp hcase)
    rcases hmmem with hml | hms
    · have := habove m hml
      omega
    · have h1 : 0 < ((List.insertionSort (· ≥ ·) (l ++ [score])).take 10).count score :=
        List.count_pos_iff.mpr hmem
      have h2 : 0 < ((List.insertionSort (· ≥ ·) (l ++ [score])).drop 10).count score := by
        rw [hm, hms]
        simp
      have hsum : 2 ≤ (List.insertionSort (· ≥ ·) (l ++ [score])).count score := by
        rw [← hsplit, List.count_append]
        omega
      omega

/-- C5 witness: a "classic" bucket with 10 entries all above 500 rejects a
new score of 500. -/
theorem C5_bucket_invariant_witness :
    ((getBucket c5store.high_scores "classic").length = 10 ∧
     (∀ x ∈ getBucket c5store.high_scores "classic", 500 < x)) ∧
    500 ∉ getBucket
        (ConfigManager.update_high_score c5store "classic" 500).1.high_scores "classic" :=
  ⟨⟨by decide, by decide⟩,
   (C5_bucket_invariant c5store "classic" 500).2.2 (by decide) (by decide)⟩

/-- C6: whenever the snake body leaves at least one grid cell free, the
generated food position is never a cell occupied by the snake body,
whatever the bounded rejection-sampling attempts produced. -/
theorem C6_food_avoids_snake (gw gh : Nat) (attempts body : List Position)
    (h : ∃ x y : Nat, x < gw ∧ y < gh ∧ (⟨(x : Int), (y : Int)⟩ : Position) ∉ body) :
    Food.generate_position gw gh attempts body ∉ body := by
  unfold Food.generate_position
  cases hfind : (attempts.take 100).find? (fun pos => decide (pos ∉ body)) with
  | some pos =>
      have hp := List.find?_some hfind
      simp only [decide_eq_true_eq] at hp
      exact hp
  | none =>
      cases hscan : (gridCells gw gh).find? (fun pos => decide (pos ∉ body)) with
      | some pos =>
          have hp := List.find?_some hscan
          simp only [decide_eq_true_eq] at hp
          exact hp
      | none =>
          exfalso
          obtain ⟨x, y, hx, hy, hfree⟩ := h
          have hmem : (⟨(x : Int), (y : Int)⟩ : Position) ∈ gridCells gw gh := by
            apply List.mem_flatMap.mpr
            refine ⟨y, List.mem_range.mpr hy, ?_⟩
            exact List.mem_map_of_mem _ (List.mem_range.mpr hx)
          have hcontra := (List.find?_eq_none.mp hscan) _ hmem
          simp only [decide_eq_true_eq] at hcontra
          exact hcontra hfree

/-- C6 witness: on a 2x1 grid with the snake on (0,0) and an exhausted
attempt stream, the generated position avoids the snake. -/
theorem C6_food_avoids_snake_witness :
    (∃ x y : Nat, x < 2 ∧ y < 1 ∧
        (⟨(x : Int), (y : Int)⟩ : Position) ∉ [(⟨0, 0⟩ : Position)]) ∧
    Food.generate_position 2 1 [] [⟨0, 0⟩] ∉ [(⟨0, 0⟩ : Position)] :=
  ⟨⟨1, 0, by decide, by decide, by decide⟩,
   C6_food_avoids_snake 2 1 [] [⟨0, 0⟩] ⟨1, 0, by decide, by decide, by decide⟩⟩

/-- C7: eating two foods before any discrete step adds both growth amounts
to the pending growth; earlier pending growth is never discarded. -/
theorem C7_growth_accumulates (s : Snake) (ft1 ft2 : FoodType) :
    ((s.eat_food ft1).eat_food ft2).grow_pending =
      s.grow_pending + ft1.base_growth + ft2.base_growth := rfl

/-- C8 counterexample: a snake whose multiplier timer is on its last tick
(multiplier 3, timer 1 — the state 599 ticks after a SCORE_MULTIPLIER
pickup): after one more tick the timer has expired (remaining 0) yet the
score multiplier still applies as x3 rather than falling back to neutral —
the reset happens only on the following tick. -/
theorem C8_multiplier_lag_cex :
    0 < c8snake.effects.score_multiplier_timer ∧
    (c8snake.update).effects.score_multiplier_timer = 0 ∧
    (c8snake.update).get_score_multiplier = 3 := by
  decide

/-- C8 (amended): all five countdown effects and the multiplier timer decay
by exactly 1 per tick while positive (and stay at 0 otherwise); the
multiplier itself is reset to the neutral 1 on the first tick whose timer
is already 0, i.e. one tick after expiry, and is untouched while the timer
is positive.  For the speed-boost scenario: after a SPEED_BOOST pickup the
timer is 300 and after n ticks it is 300 - n, so it is still active for
n < 300 and reaches 0 on tick 300, at which point the current speed is
again the plain base speed with no boost applied. -/
theorem C8_effect_timers (s : Snake) (n : Nat) :
    ((s.update).effects.speed_boost = s.effects.speed_boost - 1) ∧
    ((s.update).effects.rainbow_mode = s.effects.rainbow_mode - 1) ∧
    ((s.update).effects.shield = s.effects.shield - 1) ∧
    ((s.update).effects.slow_time = s.effects.slow_time - 1) ∧
    ((s.update).effects.double_score = s.effects.double_score - 1) ∧
    ((s.update).effects.score_multiplier_timer = s.effects.score_multiplier_timer - 1) ∧
    ((s.update).effects.score_multiplier =
      if 0 < s.effects.score_multiplier_timer then s.effects.score_multiplier else 1) ∧
    ((Snake.update^[n] ((Snake.init 20 20 4).eat_powerup .SPEED_BOOST)).effects.speed_boost
        = 300 - n) ∧
    (0 < (Snake.update^[n] ((Snake.init 20 20 4).eat_powerup .SPEED_BOOST)).effects.speed_boost
        ↔ n < 300) ∧
    ((Snake.update^[300] ((Snake.init 20 20 4).eat_powerup .SPEED_BOOST)).get_current_speed =
      (Snake.update^[300] ((Snake.init 20 20 4).eat_powerup .SPEED_BOOST)).speed +
        (Snake.update^[300] ((Snake.init 20 20 4).eat_powerup .SPEED_BOOST)).body.length / 10) := by
  have hfields : ∀ t : Snake, (t.update).effects =
      { speed_boost := t.effects.speed_boost - 1
        score_multiplier :=
          if 0 < t.effects.score_multiplier_timer then t.effects.score_multiplier else 1
        score_multiplier_timer := t.effects.score_multiplier_timer - 1
        rainbow_mode := t.effects.rainbow_mode - 1
        shield := t.effects.shield - 1
        slow_time := t.effects.slow_time - 1
        double_score := t.effects.double_score - 1 } :=
    fun t => (Snake.update_effects t).trans (Effects.tick_tickMultiplier_eq _)
  have hboost : ∀ m : Nat,
      (Snake.update^[m] ((Snake.init 20 20 4).eat_powerup .SPEED_BOOST)).effects.speed_boost
        = 300 - m := by
    intro m
    induction m with
    | zero => rfl
    | succ k ih =>
        rw [Function.iterate_succ_apply', hfields]
        dsimp only
        omega
  have h300 :
      (Snake.update^[300] ((Snake.init 20 20 4).eat_powerup .SPEED_BOOST)).effects.speed_boost
        = 0 := by
    rw [hboost]
  refine ⟨?_, ?_, ?_, ?_, ?_, ?_, ?_, hboost n, ?_, ?_⟩
  · rw [hfields]
  · rw [hfields]
  · rw [hfields]
  · rw [hfields]
  · rw [hfields]
  · rw [hfields]
  · rw [hfields]
  · rw [hboost]
    omega
  · unfold Snake.get_current_speed
    dsimp only
    rw [h300, if_neg (lt_irrefl 0)]

/-- C9: a write failure during the game-over commit is absorbed inside
`save_config`, which reports failure through its Boolean return value; the
GAME_OVER transition and the high-score commit complete regardless of the
persistence outcome. -/
theorem C9_save_failure_nonfatal (st : HighScoreStore) (mode : String) (score : Nat)
    (msg : String) :
    (Game.game_over st mode score (.ioError msg)).1 = GameState.GAME_OVER ∧
    (Game.game_over st mode score (.ioError msg)).2.2.2 = false ∧
    (Game.game_over st mode score (.ioError msg)).2.1 =
      (ConfigManager.update_high_score st mode score).1 ∧
    (Game.game_over st mode score (.ioError msg)).2.2.1 =
      (ConfigManager.update_high_score st mode score).2 ∧
    ConfigManager.save_config (.ioError msg) = false :=
  ⟨rfl, rfl, rfl, rfl, rfl⟩

/-- C10: `update_high_score` returns True exactly when the submitted score
strictly exceeds the stored global `highest_score` statistic, independent
of any bucket; the bucket insertion itself happens either way, and the
global maximum is raised to the score only when it was exceeded. -/
theorem C10_high_score_flag_is_global (st : HighScoreStore) (mode : String) (score : Nat) :
    ((ConfigManager.update_high_score st mode score).2 = true ↔ score > st.highest_score) ∧
    (ConfigManager.update_high_score st mode score).1.high_scores =
      setBucket st.high_scores mode (updateBucket (getBucket st.high_scores mode) score) ∧
    (ConfigManager.update_high_score st mode score).1.highest_score =
      max st.highest_score score := by
  unfold ConfigManager.update_high_score
  dsimp only
  by_cases h : score > st.highest_score <;> simp [h] <;> omega
